/-
Verification of the Bright Data SDK client (Python) against its
natural-language specification.

Shallow embedding of the core client logic:
  * the retry / backoff loop (`_retry_request` in brightdata.py),
  * single-call response handling (`_perform_single_scrape` / `_perform_single_search`),
  * batch dispatch with ordered result collection (`scrape` / `search` list paths),
  * URL validation (`_validate_url`, mirroring `urllib.parse.urlparse`),
  * zone provisioning (`_create_zone`, `_ensure_required_zones`),
  * snapshot download validation and body decoding (`download_snapshot` in
    brightdata/client.py).

Machine behaviour that is external to the client (the HTTP transport, the
remote API, the local filesystem) is modelled by explicit parameters:
a response environment, a completion order for the worker pool, and a
write-outcome function for file writes.  JSON decoding by the `json`
standard library is modelled by a small executable JSON parser covering
the object / string / integer fragment that appears in the claims.
-/
import Mathlib

namespace BrightData

/-! ## String helpers (Python `in`, `str.strip`, `str.lower`, `str.split`)

Implemented by structural recursion over the character list so that all
definitions evaluate inside the kernel. -/

/-- Whitespace for Python `str.strip` (ASCII fragment). -/
def isSpaceChar (c : Char) : Bool :=
  c = ' ' || c = '\t' || c = '\n' || c = '\r' || c.toNat = 11 || c.toNat = 12

def listTrim (cs : List Char) : List Char :=
  ((cs.dropWhile isSpaceChar).reverse.dropWhile isSpaceChar).reverse

/-- Python `str.strip()`. -/
def strTrim (s : String) : String := String.mk (listTrim s.data)

def listIsPrefixOf : List Char → List Char → Bool
  | [], _ => true
  | _ :: _, [] => false
  | p :: ps, c :: cs => p = c && listIsPrefixOf ps cs

def listContainsPat : List Char → List Char → Bool
  | [], pat => pat.isEmpty
  | c :: rest, pat => listIsPrefixOf pat (c :: rest) || listContainsPat rest pat

/-- Python `pat in s` substring test. -/
def strContains (s pat : String) : Bool :=
  listContainsPat s.data pat.data

/-- Python `s.startswith(pat)`. -/
def strStartsWith (s pat : String) : Bool :=
  listIsPrefixOf pat.data s.data

/-- ASCII lower-casing of one character. -/
def charLower (c : Char) : Char :=
  if 65 ≤ c.toNat && c.toNat ≤ 90 then Char.ofNat (c.toNat + 32) else c

/-- Python `str.lower()` (ASCII fragment). -/
def strLower (s : String) : String := String.mk (s.data.map charLower)

def listSplitNewline : List Char → List (List Char)
  | [] => [[]]
  | c :: rest =>
    let r := listSplitNewline rest
    if c = '\n' then [] :: r
    else
      match r with
      | h :: t => (c :: h) :: t
      | [] => [[c]]

/-- Python `s.split(chr(10))`: split on newline, keeping empty pieces. -/
def strSplitLines (s : String) : List String :=
  (listSplitNewline s.data).map String.mk

/-- A single-quote character as a string (used in error messages). -/
def squote : String := (Char.ofNat 39).toString

/-! ## Client-wide constants (class attributes of `bdclient`) -/

def MAX_RETRIES : Nat := 3

def RETRY_BACKOFF_FACTOR : ℚ := 3 / 2

def RETRY_STATUSES : List Nat := [429, 500, 502, 503, 504]

def DEFAULT_MAX_WORKERS : Nat := 10

def DEFAULT_TIMEOUT : Nat := 30

/-! ## A small JSON value type and executable parser

Models Python `json.loads` on the fragment used by the snapshot bodies in
the claims: objects with string keys, string values and integer values. -/

inductive JsonVal where
  | num (n : Int)
  | str (s : String)
  | obj (fields : List (String × JsonVal))

def jsonSkipWs (cs : List Char) : List Char :=
  cs.dropWhile (fun c => c = ' ' ∨ c = '\t' ∨ c = '\n' ∨ c = '\r')

/-- Parse a JSON string body after the opening quote: characters up to the
closing quote (no escape handling; enough for the claim inputs). -/
def jsonParseStrBody (cs : List Char) : Option (String × List Char) :=
  let body := cs.takeWhile (fun c => c ≠ '"')
  match cs.drop body.length with
  | '"' :: rest => some (String.mk body, rest)
  | _ => none

def digitsToNat (cs : List Char) : Nat :=
  cs.foldl (fun a c => a * 10 + (c.toNat - 48)) 0

def jsonParseNum (cs : List Char) : Option (Int × List Char) :=
  match cs with
  | '-' :: rest =>
    let digits := rest.takeWhile Char.isDigit
    if digits.isEmpty then none
    else some (-(digitsToNat digits : Int), rest.drop digits.length)
  | _ =>
    let digits := cs.takeWhile Char.isDigit
    if digits.isEmpty then none
    else some ((digitsToNat digits : Int), cs.drop digits.length)

mutual

def jsonParseVal : Nat → List Char → Option (JsonVal × List Char)
  | 0, _ => none
  | fuel + 1, cs =>
    match jsonSkipWs cs with
    | '{' :: rest =>
      match jsonSkipWs rest with
      | '}' :: rest2 => some (.obj [], rest2)
      | rest2 =>
        match jsonParseFields fuel rest2 with
        | some (fs, rest3) => some (.obj fs, rest3)
        | none => none
    | '"' :: rest =>
      match jsonParseStrBody rest with
      | some (s, rest2) => some (.str s, rest2)
      | none => none
    | cs2 =>
      match jsonParseNum cs2 with
      | some (n, rest) => some (.num n, rest)
      | none => none

def jsonParseFields : Nat → List Char → Option (List (String × JsonVal) × List Char)
  | 0, _ => none
  | fuel + 1, cs =>
    match jsonSkipWs cs with
    | '"' :: rest =>
      match jsonParseStrBody rest with
      | some (key, rest2) =>
        match jsonSkipWs rest2 with
        | ':' :: rest3 =>
          match jsonParseVal fuel rest3 with
          | some (v, rest4) =>
            match jsonSkipWs rest4 with
            | ',' :: rest5 =>
              match jsonParseFields fuel rest5 with
              | some (fs, rest6) => some ((key, v) :: fs, rest6)
              | none => none
            | '}' :: rest5 => some ([(key, v)], rest5)
            | _ => none
          | none => none
        | _ => none
      | none => none
    | _ => none

end

/-- Model of Python `json.loads`: parse one value and require only
whitespace to remain. -/
def jsonLoads (s : String) : Option JsonVal :=
  match jsonParseVal (s.data.length + 1) s.data with
  | some (v, rest) => if jsonSkipWs rest = [] then some v else none
  | none => none

/-- Decimal rendering of a natural number (used for error-message text). -/
def natToStrAux : Nat → Nat → List Char → List Char
  | 0, _, acc => acc
  | fuel + 1, n, acc =>
    let d := Char.ofNat (48 + n % 10)
    if n < 10 then d :: acc else natToStrAux fuel (n / 10) (d :: acc)

def natToStr (n : Nat) : String := String.mk (natToStrAux (n + 1) n [])

/-! ## HTTP outcomes and the retry loop (`bdclient._retry_request`)

A single HTTP call either yields a response (status, body text, and the
result of attempting to JSON-decode the body — `none` models a
`json.JSONDecodeError` from `response.json()`), or raises a transport
fault.  The environment is a function from the attempt number to the
outcome of the call made on that attempt. -/

structure Response where
  status : Nat
  text : String
  jsonBody : Option JsonVal

inductive CallOutcome where
  | resp (r : Response)
  | timeoutFault
  | connFault (msg : String)
  | reqFault (msg : String)

/-- Observable trace of the retry loop: the final outcome, the number of
attempts made, and the sequence of back-off sleeps performed (in seconds,
in order). -/
structure RetryTrace where
  result : Except String Response
  attempts : Nat
  sleeps : List ℚ

/-- The body of the `for attempt in range(self.MAX_RETRIES)` loop of
`_retry_request`.  `attempt` is the 0-based loop counter and `fuel` the
number of loop iterations remaining. -/
def retryAux (call : Nat → CallOutcome) : Nat → Nat → List ℚ → RetryTrace
  | _, 0, sleeps => ⟨.error "retry loop exhausted", MAX_RETRIES, sleeps⟩
  | attempt, fuel + 1, sleeps =>
    match call attempt with
    | .resp r =>
      if r.status ∈ RETRY_STATUSES then
        if attempt = MAX_RETRIES - 1 then
          ⟨.error ("Server error after " ++ natToStr MAX_RETRIES ++ " attempts: "
              ++ natToStr r.status), attempt + 1, sleeps⟩
        else
          retryAux call (attempt + 1) fuel (sleeps ++ [RETRY_BACKOFF_FACTOR ^ attempt])
      else ⟨.ok r, attempt + 1, sleeps⟩
    | .timeoutFault =>
      if attempt = MAX_RETRIES - 1 then
        ⟨.error ("Request timed out after " ++ natToStr MAX_RETRIES ++ " attempts"),
          attempt + 1, sleeps⟩
      else retryAux call (attempt + 1) fuel (sleeps ++ [RETRY_BACKOFF_FACTOR ^ attempt])
    | .connFault m =>
      if attempt = MAX_RETRIES - 1 then
        ⟨.error ("Connection error after " ++ natToStr MAX_RETRIES ++ " attempts: " ++ m),
          attempt + 1, sleeps⟩
      else retryAux call (attempt + 1) fuel (sleeps ++ [RETRY_BACKOFF_FACTOR ^ attempt])
    | .reqFault m =>
      if attempt = MAX_RETRIES - 1 then
        ⟨.error ("Network error after " ++ natToStr MAX_RETRIES ++ " attempts: " ++ m),
          attempt + 1, sleeps⟩
      else retryAux call (attempt + 1) fuel (sleeps ++ [RETRY_BACKOFF_FACTOR ^ attempt])

/-- `_retry_request`: run the wrapped call with up to `MAX_RETRIES`
attempts. -/
def retry_request (call : Nat → CallOutcome) : RetryTrace :=
  retryAux call 0 MAX_RETRIES []

/-! ## Single-call response handling
(`_perform_single_scrape` / `_perform_single_search`, status dispatch) -/

inductive RespData where
  | json (j : JsonVal)
  | text (s : String)

/-- The status-code dispatch shared verbatim by `_perform_single_scrape`
and `_perform_single_search` (brightdata.py lines 328-347 and 497-516). -/
def handle_api_response (fmt : String) (r : Response) : Except String RespData :=
  if r.status = 200 then
    if fmt = "json" then
      match r.jsonBody with
      | some j => .ok (.json j)
      | none => .ok (.text r.text)
    else .ok (.text r.text)
  else if r.status = 400 then .error ("Bad Request (400): " ++ r.text)
  else if r.status = 401 then .error ("Unauthorized (401): Check your API token. " ++ r.text)
  else if r.status = 403 then .error ("Forbidden (403): Insufficient permissions. " ++ r.text)
  else if r.status = 404 then .error ("Not Found (404): " ++ r.text)
  else .error ("API Error (" ++ natToStr r.status ++ "): " ++ r.text)

/-- `_perform_single_scrape`: make the request under the retry wrapper,
then dispatch on the final response. -/
def perform_single_scrape (call : Nat → CallOutcome) (fmt : String) :
    Except String RespData :=
  match (retry_request call).result with
  | .ok r => handle_api_response fmt r
  | .error e => .error e

/-- `_perform_single_search`: identical response handling to the scrape
path (the code is duplicated in the source). -/
def perform_single_search (call : Nat → CallOutcome) (fmt : String) :
    Except String RespData :=
  match (retry_request call).result with
  | .ok r => handle_api_response fmt r
  | .error e => .error e

/-! ## URL validation (`_validate_url`, over a model of `urllib.parse.urlparse`) -/

structure UrlParts where
  scheme : String
  netloc : String

def isSchemeChar (c : Char) : Bool :=
  c.isAlphanum || c = '+' || c = '-' || c = '.'

/-- Split at the first colon, returning the characters before and after
it, when a colon exists. -/
def findColon : List Char → Option (List Char × List Char)
  | [] => none
  | ':' :: rest => some ([], rest)
  | c :: rest =>
    match findColon rest with
    | some (b, a) => some (c :: b, a)
    | none => none

/-- Model of `urllib.parse.urlparse` restricted to the two fields the
validator reads: a scheme is recognised when a colon follows a non-empty
run of scheme characters starting with a letter; a netloc is the run
after a leading `//` up to the next `/`, `?` or `#`. -/
def urlparse (url : String) : UrlParts :=
  let cs := url.data
  let schemeRest : List Char × List Char :=
    match findColon cs with
    | some (before, after) =>
      if before ≠ [] ∧ (before.headD 'a').isAlpha = true ∧ before.all isSchemeChar = true
      then (before, after) else ([], cs)
    | none => ([], cs)
  match schemeRest.2 with
  | '/' :: '/' :: r =>
    ⟨String.mk (schemeRest.1.map charLower),
      String.mk (r.takeWhile (fun c => c ≠ '/' && c ≠ '?' && c ≠ '#'))⟩
  | _ => ⟨String.mk (schemeRest.1.map charLower), ""⟩

/-- `_validate_url` (brightdata.py lines 155-165). -/
def validate_url (url : String) : Except String Unit :=
  if strTrim url = "" then .error "URL must be a non-empty string"
  else
    let p := urlparse url
    if p.scheme = "" ∨ p.netloc = "" then
      .error "URL must include scheme (http/https) and domain"
    else .ok ()

/-- The notion of well-formedness used by the claim: a non-empty string with a
scheme and a host. -/
def wellFormedUrl (url : String) : Prop :=
  strTrim url ≠ "" ∧ (urlparse url).scheme ≠ "" ∧ (urlparse url).netloc ≠ ""

instance (url : String) : Decidable (wellFormedUrl url) := by
  unfold wellFormedUrl; infer_instance

/-- The per-item validation loop `for single_url in url: self._validate_url(single_url)`. -/
def validate_urls : List String → Except String Unit
  | [] => .ok ()
  | u :: rest =>
    match validate_url u with
    | .error e => .error e
    | .ok _ => validate_urls rest

/-- The per-item validation loop of `search` on a query list. -/
def validate_queries : List String → Except String Unit
  | [] => .ok ()
  | q :: rest =>
    if strTrim q = "" then .error "All queries must be non-empty strings"
    else validate_queries rest

/-! ## Batch dispatch with ordered collection (`scrape` / `search`, list paths)

The worker pool submits one task per input index and collects results in
completion order (`as_completed`), writing each result into the
pre-allocated slot `results[index]`.  The completion order is an
arbitrary permutation of the indices, supplied as a parameter `order`.
A task that raises aborts the whole batch, re-raised with the offending
identity of the offending input (brightdata.py lines 272-278 and 436-442). -/

def collect_batch {β : Type} (errCtx : Nat → String) (compute : Nat → Except String β) :
    List (Option β) → List Nat → Except String (List (Option β))
  | acc, [] => .ok acc
  | acc, idx :: rest =>
    match compute idx with
    | .ok r => collect_batch errCtx compute (acc.set idx (some r)) rest
    | .error e => .error (errCtx idx ++ ": " ++ e)

/-- The list path of `bdclient.scrape` (brightdata.py lines 255-280):
empty-batch check, per-item URL validation, then concurrent dispatch with
in-order placement.  `perform` models `_perform_single_scrape` on one
URL; `order` is the completion order of the workers. -/
def scrape_list {β : Type} (perform : String → Except String β)
    (urls : List String) (order : List Nat) : Except String (List (Option β)) :=
  if urls = [] then .error "URL list cannot be empty"
  else
    match validate_urls urls with
    | .error e => .error e
    | .ok _ =>
      collect_batch (fun i => "Failed to scrape " ++ urls.getD i "")
        (fun i => perform (urls.getD i ""))
        (List.replicate urls.length none) order

/-- The list path of `bdclient.search` (brightdata.py lines 417-444). -/
def search_list {β : Type} (perform : String → Except String β)
    (queries : List String) (order : List Nat) : Except String (List (Option β)) :=
  if queries = [] then .error "Query list cannot be empty"
  else
    match validate_queries queries with
    | .error e => .error e
    | .ok _ =>
      collect_batch
        (fun i => "Failed to search " ++ squote ++ queries.getD i "" ++ squote)
        (fun i => perform (queries.getD i ""))
        (List.replicate queries.length none) order

/-! ## Zone provisioning (`_create_zone`, `_ensure_required_zones`, `__init__`) -/

/-- The status handling of `_create_zone` (brightdata.py lines 144-153):
200/201 succeed; otherwise a duplicate-name signal in the body is treated
as success (`"Duplicate zone name" in response.text` is a case-sensitive
test, `"already exists" in response.text.lower()` a case-insensitive
one); any other response raises. -/
def create_zone_result (status : Nat) (body : String) : Except String Unit :=
  if status = 200 ∨ status = 201 then .ok ()
  else if strContains body "Duplicate zone name" = true then .ok ()
  else if strContains (strLower body) "already exists" = true then .ok ()
  else .error ("Failed to create zone: " ++ body)

/-- The duplicate-name signal as the claim states it: either marker phrase occurs in the
body as a case-insensitive substring. -/
def duplicateSignalCaseInsensitive (body : String) : Bool :=
  strContains (strLower body) (strLower "Duplicate zone name") ||
  strContains (strLower body) (strLower "already exists")

/-- Outcome of `GET /zone/get_active_zones`: a transport fault, or a
response carrying a status and the result of JSON-decoding the body into
a list of zone names (`none` models a `json.JSONDecodeError`). -/
inductive ListZonesOutcome where
  | fault (msg : String)
  | resp (status : Nat) (parsed : Option (List String))

/-- Environment for provisioning: the listing outcome and, for each zone
name, the (status, body) of its `POST /zone` creation call. -/
structure ZoneEnv where
  listing : ListZonesOutcome
  createResp : String → Nat × String

/-- The `try`-block body of `_ensure_required_zones` (brightdata.py lines
84-97): list active zones; on a non-200 status return with no creations;
otherwise create every required zone that is absent.  `.error` models an
exception escaping the block; `.ok names` returns the zones created. -/
def ensure_zones_body (env : ZoneEnv) (required : List String) :
    Except String (List String) :=
  match env.listing with
  | .fault m => .error ("Network error while ensuring zones exist: " ++ m)
  | .resp status parsed =>
    if status ≠ 200 then .ok []
    else
      match parsed with
      | none => .error "Invalid JSON response while checking zones"
      | some names =>
        required.foldl
          (fun acc z =>
            match acc with
            | .error e => .error e
            | .ok created =>
              if z ∈ names then .ok created
              else
                match create_zone_result (env.createResp z).1 (env.createResp z).2 with
                | .ok _ => .ok (created ++ [z])
                | .error e => .error e)
          (.ok [])

/-- `_ensure_required_zones`: every exception from the body is caught and
degraded to a warning; on any failure the provisioning result is empty. -/
def ensure_required_zones (env : ZoneEnv) (required : List String) : List String :=
  match ensure_zones_body env required with
  | .ok created => created
  | .error _ => []

structure Client where
  api_token : String
  web_unlocker_zone : String
  browser_zone : String
  serp_zone : String
  provisioned : List String

/-- `bdclient.__init__` (brightdata.py lines 32-77): reject a missing
token, then (when `auto_create_zones` is set) run provisioning, whose
failures never escape the constructor. -/
def client_init (api_token : String) (auto_create_zones : Bool)
    (webZ browserZ serpZ : String) (env : ZoneEnv) : Except String Client :=
  if api_token = "" then
    .error "API token is required. Provide it as parameter or set API_TOKEN environment variable"
  else
    .ok
      { api_token := api_token
        web_unlocker_zone := webZ
        browser_zone := browserZ
        serp_zone := serpZ
        provisioned :=
          if auto_create_zones then ensure_required_zones env [webZ, browserZ, serpZ]
          else [] }

/-! ## Snapshot download (`bdclient.download_snapshot`, brightdata/client.py) -/

/-- The parameter validation of `download_snapshot` (client.py lines
461-478), in source order.  `batch_size` and `part` are optional
integers; the `isinstance` checks are subsumed by the typing. -/
def download_snapshot_validate (snapshot_id fmt : String)
    (batch_size part : Option Int) : Except String Unit :=
  if snapshot_id = "" then
    .error "Snapshot ID is required and must be a non-empty string"
  else if ¬ (fmt = "json" ∨ fmt = "ndjson" ∨ fmt = "jsonl" ∨ fmt = "csv") then
    .error "Format must be one of: json, ndjson, jsonl, csv"
  else if (match batch_size with | some b => decide (b < 1000) | none => false) = true then
    .error "Batch size must be an integer >= 1000"
  else if (match part with | some p => decide (p < 1) | none => false) = true then
    .error "Part must be a positive integer"
  else if part.isSome = true ∧ batch_size = none then
    .error "Part parameter requires batch_size to be specified"
  else .ok ()

inductive SnapshotData where
  | text (s : String)
  | json (j : JsonVal)
  | objects (l : List JsonVal)

/-- The body decoding of `download_snapshot` (client.py lines 505-527):
csv is returned verbatim; otherwise a body containing a newline followed
by a brace and whose trimmed text starts with a brace is decoded
line-by-line as newline-delimited JSON with blank and malformed lines
skipped; otherwise a single JSON document, falling back to raw text.
`parse` models `json.loads`. -/
def decode_snapshot_body (parse : String → Option JsonVal) (fmt body : String) :
    SnapshotData :=
  if fmt = "csv" then .text body
  else if strContains body "\n\x7b" = true ∧ strStartsWith (strTrim body) "\x7b" = true then
    .objects ((strSplitLines (strTrim body)).filterMap
      (fun line => if strTrim line = "" then none else parse line))
  else
    match parse body with
    | some j => .json j
    | none => .text body

/-- `download_snapshot` after the HTTP call returned (status, body):
validation, status dispatch, body decoding, then an attempted local file
write whose outcome (`write fname`) is swallowed by a bare
`except: pass`.  Returns the caller-visible result together with the
filename for which a write was attempted (`none` when no write
happened). -/
def download_snapshot (snapshot_id fmt : String) (batch_size part : Option Int)
    (parse : String → Option JsonVal) (status : Nat) (body : String)
    (write : String → Except String Unit) :
    Except String SnapshotData × Option String :=
  match download_snapshot_validate snapshot_id fmt batch_size part with
  | .error e => (.error e, none)
  | .ok _ =>
    if status = 401 then (.error "Invalid API token or insufficient permissions", none)
    else if status = 404 then
      (.error ("Snapshot " ++ squote ++ snapshot_id ++ squote ++ " not found"), none)
    else if status ≠ 200 then
      (.error ("Failed to download snapshot with status " ++ natToStr status ++ ": " ++ body),
        none)
    else
      let data := decode_snapshot_body parse fmt body
      let fname := "snapshot_" ++ snapshot_id ++ "." ++ fmt
      match write fname with
      | .ok _ => (.ok data, some fname)
      | .error _ => (.ok data, some fname)

/-! ## Helper lemmas -/

theorem collect_batch_ok {β : Type} (errCtx : Nat → String)
    (compute : Nat → Except String β) (order : List Nat) :
    ∀ acc : List (Option β), (∀ i ∈ order, (compute i).isOk = true) →
      collect_batch errCtx compute acc order =
        .ok (order.foldl (fun a i => a.set i (compute i).toOption) acc) := by
  induction order with
  | nil => intro acc _; rfl
  | cons idx rest ih =>
    intro acc h
    have hidx : (compute idx).isOk = true := h idx (List.mem_cons_self _ _)
    cases hc : compute idx with
    | ok r =>
      simp only [collect_batch, hc, List.foldl_cons]
      have := ih (acc.set idx (some r)) (fun i hi => h i (List.mem_cons_of_mem _ hi))
      simpa [hc, Except.toOption] using this
    | error e => rw [hc] at hidx; simp [Except.isOk, Except.toBool] at hidx

theorem foldl_set_length {β : Type} (compute : Nat → Except String β) (order : List Nat) :
    ∀ acc : List (Option β),
      (order.foldl (fun a i => a.set i (compute i).toOption) acc).length = acc.length := by
  induction order with
  | nil => intro acc; rfl
  | cons j rest ih => intro acc; simp [List.foldl_cons, ih]

theorem foldl_set_stable {β : Type} (compute : Nat → Except String β) (order : List Nat) :
    ∀ (acc : List (Option β)) (i : Nat), acc[i]? = some ((compute i).toOption) →
      (order.foldl (fun a j => a.set j (compute j).toOption) acc)[i]? =
        some ((compute i).toOption) := by
  induction order with
  | nil => intro acc i h; exact h
  | cons j rest ih =>
    intro acc i h
    simp only [List.foldl_cons]
    apply ih
    by_cases hij : j = i
    · subst hij
      have hlt : j < acc.length := (List.getElem?_eq_some.mp h).1
      simp [List.getElem?_set_eq_of_lt _ hlt]
    · rw [List.getElem?_set_ne hij]; exact h

theorem foldl_set_mem {β : Type} (compute : Nat → Except String β) (order : List Nat) :
    ∀ (acc : List (Option β)) (i : Nat), i ∈ order → i < acc.length →
      (order.foldl (fun a j => a.set j (compute j).toOption) acc)[i]? =
        some ((compute i).toOption) := by
  induction order with
  | nil => intro _ i h _; cases h
  | cons j rest ih =>
    intro acc i hmem hlen
    simp only [List.foldl_cons]
    rcases List.mem_cons.mp hmem with h | h
    · subst h
      exact foldl_set_stable compute rest _ i
        (by simp [List.getElem?_set_eq_of_lt _ hlen])
    · exact ih (acc.set j _) i h (by simpa using hlen)

theorem validate_urls_ok (urls : List String)
    (h : ∀ u ∈ urls, validate_url u = .ok ()) : validate_urls urls = .ok () := by
  induction urls with
  | nil => rfl
  | cons u rest ih =>
    have hu := h u (List.mem_cons_self _ _)
    simp only [validate_urls, hu]
    exact ih (fun v hv => h v (List.mem_cons_of_mem _ hv))

theorem validate_queries_ok (queries : List String)
    (h : ∀ q ∈ queries, strTrim q ≠ "") : validate_queries queries = .ok () := by
  induction queries with
  | nil => rfl
  | cons q rest ih =>
    have hq := h q (List.mem_cons_self _ _)
    simp only [validate_queries, if_neg hq]
    exact ih (fun v hv => h v (List.mem_cons_of_mem _ hv))

theorem getD_eq_getElem {α : Type} (l : List α) (i : Nat) (d : α) (h : i < l.length) :
    l.getD i d = l[i] := by
  simp [List.getD, List.getElem?_eq_getElem h]

/-! ## Claims -/

/-- Claim C1: for every list of N valid URLs passed to `scrape` (and every
list of N valid queries passed to `search`) for which every per-item
request succeeds, the returned sequence has length N and the element at
index i is the result of processing input item i, regardless of the
order in which the concurrent workers complete. -/
theorem batch_output_matches_input_order {β : Type}
    (performS performQ : String → Except String β)
    (urls queries : List String) (orderS orderQ : List Nat) :
    (urls ≠ [] → (∀ u ∈ urls, validate_url u = .ok ()) →
      orderS.Perm (List.range urls.length) →
      (∀ u ∈ urls, (performS u).isOk = true) →
      ∃ res, scrape_list performS urls orderS = .ok res ∧
        res.length = urls.length ∧
        ∀ i (hi : i < urls.length), res[i]? = some ((performS urls[i]).toOption)) ∧
    (queries ≠ [] → (∀ q ∈ queries, strTrim q ≠ "") →
      orderQ.Perm (List.range queries.length) →
      (∀ q ∈ queries, (performQ q).isOk = true) →
      ∃ res, search_list performQ queries orderQ = .ok res ∧
        res.length = queries.length ∧
        ∀ i (hi : i < queries.length), res[i]? = some ((performQ queries[i]).toOption)) := by
  constructor
  · intro hne hvalid hperm hok
    have hmem : ∀ i ∈ orderS, i < urls.length := fun i hi =>
      List.mem_range.mp (hperm.mem_iff.mp hi)
    have hcomp : ∀ i ∈ orderS, ((fun i => performS (urls.getD i "")) i).isOk = true := by
      intro i hi
      have hlt := hmem i hi
      show (performS (urls.getD i "")).isOk = true
      rw [getD_eq_getElem urls i "" hlt]
      exact hok _ (List.getElem_mem hlt)
    refine ⟨orderS.foldl
        (fun a i => a.set i ((fun i => performS (urls.getD i "")) i).toOption)
        (List.replicate urls.length none), ?_, ?_, ?_⟩
    · simp only [scrape_list, if_neg hne, validate_urls_ok urls hvalid]
      exact collect_batch_ok _ _ orderS _ hcomp
    · rw [foldl_set_length]; simp
    · intro i hi
      have : i ∈ orderS := hperm.mem_iff.mpr (List.mem_range.mpr hi)
      have h := foldl_set_mem (fun i => performS (urls.getD i ""))
        orderS (List.replicate urls.length none) i this (by simpa using hi)
      rw [h]
      simp only [getD_eq_getElem urls i "" hi]
  · intro hne hvalid hperm hok
    have hmem : ∀ i ∈ orderQ, i < queries.length := fun i hi =>
      List.mem_range.mp (hperm.mem_iff.mp hi)
    have hcomp : ∀ i ∈ orderQ, ((fun i => performQ (queries.getD i "")) i).isOk = true := by
      intro i hi
      have hlt := hmem i hi
      show (performQ (queries.getD i "")).isOk = true
      rw [getD_eq_getElem queries i "" hlt]
      exact hok _ (List.getElem_mem hlt)
    refine ⟨orderQ.foldl
        (fun a i => a.set i ((fun i => performQ (queries.getD i "")) i).toOption)
        (List.replicate queries.length none), ?_, ?_, ?_⟩
    · simp only [search_list, if_neg hne, validate_queries_ok queries hvalid]
      exact collect_batch_ok _ _ orderQ _ hcomp
    · rw [foldl_set_length]; simp
    · intro i hi
      have : i ∈ orderQ := hperm.mem_iff.mpr (List.mem_range.mpr hi)
      have h := foldl_set_mem (fun i => performQ (queries.getD i ""))
        orderQ (List.replicate queries.length none) i this (by simpa using hi)
      rw [h]
      simp only [getD_eq_getElem queries i "" hi]

/-- Witness for C1 at a concrete two-URL batch completing in reverse
order, and a concrete one-query search. -/
theorem batch_output_matches_input_order_witness :
    (∃ res, scrape_list (fun u => (Except.ok u : Except String String))
        ["https://a.com", "https://b.com"] [1, 0] = .ok res ∧
      res.length = 2 ∧ res[0]? = some (some "https://a.com") ∧
      res[1]? = some (some "https://b.com")) ∧
    (∃ res, search_list (fun q => (Except.ok q : Except String String)) ["pizza"] [0] =
        .ok res ∧ res.length = 1 ∧ res[0]? = some (some "pizza")) := by
  constructor
  · obtain ⟨res, h1, h2, h3⟩ :=
      (batch_output_matches_input_order (fun u => (Except.ok u : Except String String))
        (fun q => (Except.ok q : Except String String))
        ["https://a.com", "https://b.com"] ["pizza"] [1, 0] [0]).1
      (by simp)
      (by intro u hu; fin_cases hu <;> rfl)
      (by decide)
      (by intro u hu; rfl)
    refine ⟨res, h1, h2, ?_, ?_⟩
    · have := h3 0 (by norm_num); simpa using this
    · have := h3 1 (by norm_num); simpa using this
  · obtain ⟨res, h1, h2, h3⟩ :=
      (batch_output_matches_input_order (fun u => (Except.ok u : Except String String))
        (fun q => (Except.ok q : Except String String))
        ["https://a.com", "https://b.com"] ["pizza"] [1, 0] [0]).2
      (by simp)
      (by intro q hq; fin_cases hq; decide)
      (by decide)
      (by intro q hq; rfl)
    refine ⟨res, h1, h2, ?_⟩
    have := h3 0 (by norm_num); simpa using this

theorem retryAux_retry_step (call : Nat → CallOutcome) (attempt fuel : Nat)
    (sleeps : List ℚ) (r : Response) (hc : call attempt = .resp r)
    (hmem : r.status ∈ RETRY_STATUSES) (hlt : attempt < MAX_RETRIES - 1) :
    retryAux call attempt (fuel + 1) sleeps =
      retryAux call (attempt + 1) fuel (sleeps ++ [RETRY_BACKOFF_FACTOR ^ attempt]) := by
  simp only [retryAux, hc]
  rw [if_pos hmem, if_neg (by omega)]

theorem retryAux_final_fail (call : Nat → CallOutcome) (fuel : Nat)
    (sleeps : List ℚ) (r : Response) (hc : call (MAX_RETRIES - 1) = .resp r)
    (hmem : r.status ∈ RETRY_STATUSES) :
    retryAux call (MAX_RETRIES - 1) (fuel + 1) sleeps =
      ⟨.error ("Server error after " ++ natToStr MAX_RETRIES ++ " attempts: "
          ++ natToStr r.status), MAX_RETRIES, sleeps⟩ := by
  simp only [retryAux, hc]
  rw [if_pos hmem]
  simp [MAX_RETRIES]

theorem retryAux_success (call : Nat → CallOutcome) (attempt fuel : Nat)
    (sleeps : List ℚ) (r : Response) (hc : call attempt = .resp r)
    (hmem : r.status ∉ RETRY_STATUSES) :
    retryAux call attempt (fuel + 1) sleeps = ⟨.ok r, attempt + 1, sleeps⟩ := by
  simp only [retryAux, hc]
  rw [if_neg hmem]

/-- Claim C2: a retryable status (429/500/502/503/504) on a non-final
attempt triggers a retry preceded by a sleep of `1.5 ^ attempt` seconds;
the same status on the final attempt (index 2 of 3) raises a
retry-exhaustion error with no further sleep.  Hence 503 twice then 200
succeeds after exactly the two delays `1.5 ^ 0` and `1.5 ^ 1`, and 503
three times raises after exactly 3 attempts. -/
theorem retry_backoff_policy (call : Nat → CallOutcome) :
    (∀ attempt fuel sleeps r, call attempt = .resp r → r.status ∈ RETRY_STATUSES →
      attempt < MAX_RETRIES - 1 →
      retryAux call attempt (fuel + 1) sleeps =
        retryAux call (attempt + 1) fuel (sleeps ++ [RETRY_BACKOFF_FACTOR ^ attempt])) ∧
    (∀ fuel sleeps r, call (MAX_RETRIES - 1) = .resp r → r.status ∈ RETRY_STATUSES →
      retryAux call (MAX_RETRIES - 1) (fuel + 1) sleeps =
        ⟨.error ("Server error after " ++ natToStr MAX_RETRIES ++ " attempts: "
            ++ natToStr r.status), MAX_RETRIES, sleeps⟩) ∧
    (∀ r0 r1 r2, call 0 = .resp r0 → r0.status ∈ RETRY_STATUSES →
      call 1 = .resp r1 → r1.status ∈ RETRY_STATUSES →
      call 2 = .resp r2 → r2.status ∉ RETRY_STATUSES →
      retry_request call =
        ⟨.ok r2, 3, [RETRY_BACKOFF_FACTOR ^ 0, RETRY_BACKOFF_FACTOR ^ 1]⟩) ∧
    (∀ r0 r1 r2, call 0 = .resp r0 → r0.status ∈ RETRY_STATUSES →
      call 1 = .resp r1 → r1.status ∈ RETRY_STATUSES →
      call 2 = .resp r2 → r2.status ∈ RETRY_STATUSES →
      retry_request call =
        ⟨.error ("Server error after " ++ natToStr MAX_RETRIES ++ " attempts: "
            ++ natToStr r2.status), 3,
          [RETRY_BACKOFF_FACTOR ^ 0, RETRY_BACKOFF_FACTOR ^ 1]⟩) := by
  refine ⟨retryAux_retry_step call, retryAux_final_fail call, ?_, ?_⟩
  · intro r0 r1 r2 h0 m0 h1 m1 h2 m2
    have s0 : retry_request call = retryAux call 1 2 [RETRY_BACKOFF_FACTOR ^ 0] := by
      have := retryAux_retry_step call 0 2 [] r0 h0 m0 (by decide)
      simpa [retry_request, MAX_RETRIES] using this
    have s1 : retryAux call 1 2 [RETRY_BACKOFF_FACTOR ^ 0] =
        retryAux call 2 1 [RETRY_BACKOFF_FACTOR ^ 0, RETRY_BACKOFF_FACTOR ^ 1] := by
      have := retryAux_retry_step call 1 1 [RETRY_BACKOFF_FACTOR ^ 0] r1 h1 m1 (by decide)
      simpa using this
    have s2 : retryAux call 2 1 [RETRY_BACKOFF_FACTOR ^ 0, RETRY_BACKOFF_FACTOR ^ 1] =
        ⟨.ok r2, 3, [RETRY_BACKOFF_FACTOR ^ 0, RETRY_BACKOFF_FACTOR ^ 1]⟩ := by
      have := retryAux_success call 2 0
        [RETRY_BACKOFF_FACTOR ^ 0, RETRY_BACKOFF_FACTOR ^ 1] r2 h2 m2
      simpa using this
    rw [s0, s1, s2]
  · intro r0 r1 r2 h0 m0 h1 m1 h2 m2
    have s0 : retry_request call = retryAux call 1 2 [RETRY_BACKOFF_FACTOR ^ 0] := by
      have := retryAux_retry_step call 0 2 [] r0 h0 m0 (by decide)
      simpa [retry_request, MAX_RETRIES] using this
    have s1 : retryAux call 1 2 [RETRY_BACKOFF_FACTOR ^ 0] =
        retryAux call 2 1 [RETRY_BACKOFF_FACTOR ^ 0, RETRY_BACKOFF_FACTOR ^ 1] := by
      have := retryAux_retry_step call 1 1 [RETRY_BACKOFF_FACTOR ^ 0] r1 h1 m1 (by decide)
      simpa using this
    have s2 : retryAux call 2 1 [RETRY_BACKOFF_FACTOR ^ 0, RETRY_BACKOFF_FACTOR ^ 1] =
        ⟨.error ("Server error after " ++ natToStr MAX_RETRIES ++ " attempts: "
            ++ natToStr r2.status), 3,
          [RETRY_BACKOFF_FACTOR ^ 0, RETRY_BACKOFF_FACTOR ^ 1]⟩ := by
      have := retryAux_final_fail call 0
        [RETRY_BACKOFF_FACTOR ^ 0, RETRY_BACKOFF_FACTOR ^ 1] r2 h2 m2
      simpa [MAX_RETRIES] using this
    rw [s0, s1, s2]

/-- Witness for C2: a call answering 503, 503, 200 succeeds with exactly
the sleeps `1.5 ^ 0` and `1.5 ^ 1`; a call answering 503 three times
raises the exhaustion error after 3 attempts with the same two sleeps. -/
theorem retry_backoff_policy_witness :
    (retry_request (fun a => .resp ⟨if a < 2 then 503 else 200, "", none⟩) =
      ⟨.ok ⟨200, "", none⟩, 3, [RETRY_BACKOFF_FACTOR ^ 0, RETRY_BACKOFF_FACTOR ^ 1]⟩) ∧
    (retry_request (fun _ => .resp ⟨503, "", none⟩) =
      ⟨.error ("Server error after " ++ natToStr MAX_RETRIES ++ " attempts: "
          ++ natToStr 503), 3,
        [RETRY_BACKOFF_FACTOR ^ 0, RETRY_BACKOFF_FACTOR ^ 1]⟩) := by
  constructor
  · exact (retry_backoff_policy (fun a => .resp ⟨if a < 2 then 503 else 200, "", none⟩)).2.2.1
      ⟨503, "", none⟩ ⟨503, "", none⟩ ⟨200, "", none⟩
      rfl (by decide) rfl (by decide) rfl (by decide)
  · exact (retry_backoff_policy (fun _ => .resp ⟨503, "", none⟩)).2.2.2
      ⟨503, "", none⟩ ⟨503, "", none⟩ ⟨503, "", none⟩
      rfl (by decide) rfl (by decide) rfl (by decide)

theorem collect_batch_error {β : Type} (errCtx : Nat → String)
    (compute : Nat → Except String β) (i : Nat) (e : String) (order₂ : List Nat)
    (h2 : compute i = .error e) :
    ∀ (order₁ : List Nat) (acc : List (Option β)),
      (∀ j ∈ order₁, (compute j).isOk = true) →
      collect_batch errCtx compute acc (order₁ ++ i :: order₂) =
        .error (errCtx i ++ ": " ++ e) := by
  intro order₁
  induction order₁ with
  | nil => intro acc _; simp only [List.nil_append, collect_batch, h2]
  | cons j rest ih =>
    intro acc h
    have hj := h j (List.mem_cons_self _ _)
    cases hc : compute j with
    | ok r =>
      simp only [List.cons_append, collect_batch, hc]
      exact ih _ (fun k hk => h k (List.mem_cons_of_mem _ hk))
    | error e2 => rw [hc] at hj; simp [Except.isOk, Except.toBool] at hj

/-- Counterexample to claim C3 as stated: in a two-URL batch whose second
item fails, the batch call raises (`.error`) instead of returning a
full-length result sequence carrying a structured error record in the
failing slot. -/
theorem batch_error_isolation_counterexample :
    (scrape_list (fun u => if u = "https://a.com" then Except.ok "A" else .error "boom")
        ["https://a.com", "https://b.com"] [0, 1] =
      .error "Failed to scrape https://b.com: boom") ∧
    ∀ res : List (Option String),
      scrape_list (fun u => if u = "https://a.com" then Except.ok "A" else .error "boom")
          ["https://a.com", "https://b.com"] [0, 1] ≠ .ok res := by
  refine ⟨rfl, ?_⟩
  intro res h
  rw [show scrape_list
      (fun u => if u = "https://a.com" then Except.ok "A" else .error "boom")
      ["https://a.com", "https://b.com"] [0, 1] =
      .error "Failed to scrape https://b.com: boom" from rfl] at h
  exact Except.noConfusion h

/-- Claim C3 amended: when an item of a batch scrape or search fails with
an unrecoverable error, the batch call raises an aggregate error naming
the originating input (fail-fast) instead of isolating the failure into
the output slot of that item. -/
theorem batch_error_fail_fast {β : Type}
    (performS performQ : String → Except String β)
    (urls queries : List String) (order₁ order₂ order₃ order₄ : List Nat)
    (i k : Nat) (e f : String) :
    (urls ≠ [] → validate_urls urls = .ok () →
      (∀ j ∈ order₁, (performS (urls.getD j "")).isOk = true) →
      performS (urls.getD i "") = .error e →
      scrape_list performS urls (order₁ ++ i :: order₂) =
        .error ("Failed to scrape " ++ urls.getD i "" ++ ": " ++ e)) ∧
    (queries ≠ [] → validate_queries queries = .ok () →
      (∀ j ∈ order₃, (performQ (queries.getD j "")).isOk = true) →
      performQ (queries.getD k "") = .error f →
      search_list performQ queries (order₃ ++ k :: order₄) =
        .error ("Failed to search " ++ squote ++ queries.getD k "" ++ squote ++ ": " ++ f)) := by
  constructor
  · intro hne hv hok hfail
    simp only [scrape_list, if_neg hne, hv]
    exact collect_batch_error _ _ i e order₂ hfail order₁ _ hok
  · intro hne hv hok hfail
    simp only [search_list, if_neg hne, hv]
    exact collect_batch_error _ _ k f order₄ hfail order₃ _ hok

/-- Witness for the amended C3 at concrete failing batches. -/
theorem batch_error_fail_fast_witness :
    (scrape_list (fun u => if u = "https://a.com" then Except.ok "A" else .error "boom")
        ["https://a.com", "https://b.com"] ([0] ++ 1 :: []) =
      .error ("Failed to scrape " ++ ["https://a.com", "https://b.com"].getD 1 "" ++ ": "
          ++ "boom")) ∧
    (search_list (fun q => if q = "ok" then Except.ok "A" else .error "bad")
        ["ok", "fail"] ([0] ++ 1 :: []) =
      .error ("Failed to search " ++ squote ++ ["ok", "fail"].getD 1 "" ++ squote ++ ": "
          ++ "bad")) := by
  constructor
  · exact (batch_error_fail_fast
        (fun u => if u = "https://a.com" then Except.ok "A" else .error "boom")
        (fun q => if q = "ok" then Except.ok "A" else .error "bad")
        ["https://a.com", "https://b.com"] ["ok", "fail"] [0] [] [0] [] 1 1 "boom" "bad").1
      (by simp) rfl (by intro j hj; fin_cases hj; rfl) rfl
  · exact (batch_error_fail_fast
        (fun u => if u = "https://a.com" then Except.ok "A" else .error "boom")
        (fun q => if q = "ok" then Except.ok "A" else .error "bad")
        ["https://a.com", "https://b.com"] ["ok", "fail"] [0] [] [0] [] 1 1 "boom" "bad").2
      (by simp) rfl (by intro j hj; fin_cases hj; rfl) rfl

/-- Counterexample to claim C4 as stated: the body "Duplicate Zone Name"
contains the duplicate-name signal as a case-insensitive substring, yet
zone creation with status 400 raises, because the source matches
"Duplicate zone name" case-sensitively. -/
theorem zone_duplicate_signal_counterexample :
    duplicateSignalCaseInsensitive "Duplicate Zone Name" = true ∧
    create_zone_result 400 "Duplicate Zone Name" =
      .error ("Failed to create zone: " ++ "Duplicate Zone Name") := ⟨rfl, rfl⟩

/-- Claim C4 amended: on a creation status outside 200/201, creation
succeeds exactly when the body contains "Duplicate zone name" as a
case-sensitive substring or "already exists" as a substring of the
lowercased body; otherwise it raises a provisioning error. -/
theorem zone_create_idempotent_amended (status : Nat) (body : String)
    (h : ¬ (status = 200 ∨ status = 201)) :
    (strContains body "Duplicate zone name" = true ∨
        strContains (strLower body) "already exists" = true →
      create_zone_result status body = .ok ()) ∧
    (¬ (strContains body "Duplicate zone name" = true ∨
        strContains (strLower body) "already exists" = true) →
      create_zone_result status body = .error ("Failed to create zone: " ++ body)) := by
  constructor
  · intro hs
    unfold create_zone_result
    rw [if_neg h]
    rcases hs with hs | hs
    · rw [if_pos hs]
    · by_cases h1 : strContains body "Duplicate zone name" = true
      · rw [if_pos h1]
      · rw [if_neg h1, if_pos hs]
  · intro hs
    push_neg at hs
    unfold create_zone_result
    rw [if_neg h, if_neg hs.1, if_neg hs.2]

/-- Witness for the amended C4: a lowercased-body "already exists" match
succeeds; a body with no signal raises. -/
theorem zone_create_idempotent_amended_witness :
    create_zone_result 400 "zone already EXISTS" = .ok () ∧
    create_zone_result 400 "quota exceeded" =
      .error ("Failed to create zone: " ++ "quota exceeded") := by
  constructor
  · exact (zone_create_idempotent_amended 400 "zone already EXISTS" (by decide)).1
      (Or.inr (by decide))
  · exact (zone_create_idempotent_amended 400 "quota exceeded" (by decide)).2 (by decide)

/-- Claim C5: for a single scrape or search whose final HTTP response has
status 200 and requested format "json", a JSON-decode failure on the body
returns the raw response text and never raises. -/
theorem json_decode_fallback (call : Nat → CallOutcome) (r : Response)
    (hres : (retry_request call).result = .ok r) (hstatus : r.status = 200)
    (hjson : r.jsonBody = none) :
    perform_single_scrape call "json" = .ok (.text r.text) ∧
    perform_single_search call "json" = .ok (.text r.text) := by
  constructor <;>
    simp [perform_single_scrape, perform_single_search, hres, handle_api_response,
      hstatus, hjson]

/-- Witness for C5: a 200 response whose body "not json at all" fails to
parse is returned as raw text by both paths. -/
theorem json_decode_fallback_witness :
    perform_single_scrape (fun _ => .resp ⟨200, "not json at all", none⟩) "json" =
      .ok (.text "not json at all") ∧
    perform_single_search (fun _ => .resp ⟨200, "not json at all", none⟩) "json" =
      .ok (.text "not json at all") :=
  json_decode_fallback (fun _ => .resp ⟨200, "not json at all", none⟩)
    ⟨200, "not json at all", none⟩ rfl rfl rfl

theorem validate_ok_conditions (snapshot_id fmt : String)
    (batch_size part : Option Int)
    (h : download_snapshot_validate snapshot_id fmt batch_size part = .ok ()) :
    snapshot_id ≠ "" ∧ (fmt = "json" ∨ fmt = "ndjson" ∨ fmt = "jsonl" ∨ fmt = "csv") ∧
    (∀ b, batch_size = some b → 1000 ≤ b) ∧
    (∀ p, part = some p → 1 ≤ p ∧ batch_size ≠ none) := by
  unfold download_snapshot_validate at h
  split_ifs at h with h1 h2 h3 h4 h5
  refine ⟨h1, h2, ?_, ?_⟩
  · intro b hb
    rw [hb] at h3
    simp at h3
    omega
  · intro p hp
    refine ⟨?_, ?_⟩
    · rw [hp] at h4
      simp at h4
      omega
    · intro hn
      exact h5 ⟨by simp [hp], hn⟩

/-- Claim C6: `download_snapshot` rejects, before any network activity,
an empty snapshot id, a format outside json/ndjson/jsonl/csv, a present
batch size below 1000, and a present part that is below 1 or comes
without a batch size; `batch_size = 999` is rejected,
`batch_size = 1000, part = 0` is rejected, part without batch size is
rejected, and `batch_size = 1000, part = 1` passes validation. -/
theorem download_snapshot_validation (snapshot_id fmt : String)
    (batch_size part : Option Int) :
    (snapshot_id = "" ∨
        ¬ (fmt = "json" ∨ fmt = "ndjson" ∨ fmt = "jsonl" ∨ fmt = "csv") ∨
        (∃ b, batch_size = some b ∧ b < 1000) ∨
        (∃ p, part = some p ∧ (p < 1 ∨ batch_size = none)) →
      ∃ m, ∀ (parse : String → Option JsonVal) (status : Nat) (body : String)
          (write : String → Except String Unit),
        download_snapshot snapshot_id fmt batch_size part parse status body write =
          (.error m, none)) ∧
    (download_snapshot_validate "s" "json" (some 1000) (some 1) = .ok ()) ∧
    (snapshot_id ≠ "" →
      download_snapshot_validate snapshot_id "json" (some 999) part =
        .error "Batch size must be an integer >= 1000") ∧
    (snapshot_id ≠ "" →
      download_snapshot_validate snapshot_id "json" (some 1000) (some 0) =
        .error "Part must be a positive integer") ∧
    (snapshot_id ≠ "" →
      download_snapshot_validate snapshot_id "json" none (some 1) =
        .error "Part parameter requires batch_size to be specified") := by
  refine ⟨?_, rfl, ?_, ?_, ?_⟩
  · intro h
    cases hval : download_snapshot_validate snapshot_id fmt batch_size part with
    | error m =>
      refine ⟨m, fun parse status body write => ?_⟩
      unfold download_snapshot
      rw [hval]
    | ok v =>
      exfalso
      obtain ⟨c1, c2, c3, c4⟩ :=
        validate_ok_conditions snapshot_id fmt batch_size part (by cases v; exact hval)
      rcases h with h | h | ⟨b, hb, hblt⟩ | ⟨p, hp, hpbad⟩
      · exact c1 h
      · exact h c2
      · have := c3 b hb; omega
      · rcases hpbad with hlt | hnone
        · have := (c4 p hp).1; omega
        · exact (c4 p hp).2 hnone
  · intro hs
    unfold download_snapshot_validate
    rw [if_neg hs]
    norm_num
  · intro hs
    unfold download_snapshot_validate
    rw [if_neg hs]
    norm_num
  · intro hs
    unfold download_snapshot_validate
    rw [if_neg hs]
    norm_num

/-- Witness for C6: part without batch size is rejected with no network
effect for a concrete request environment. -/
theorem download_snapshot_validation_witness :
    (∃ m, download_snapshot "s1" "json" none (some 1) jsonLoads 200 "body"
        (fun _ => .ok ()) = (.error m, none)) ∧
    download_snapshot_validate "s" "json" (some 1000) (some 1) = .ok () := by
  constructor
  · obtain ⟨m, hm⟩ := (download_snapshot_validation "s1" "json" none (some 1)).1
      (Or.inr (Or.inr (Or.inr ⟨1, rfl, Or.inr rfl⟩)))
    exact ⟨m, hm jsonLoads 200 "body" (fun _ => .ok ())⟩
  · exact (download_snapshot_validation "s1" "json" none (some 1)).2.1

/-- Claim C7: for a non-csv format and a 200 body containing a newline
followed by a brace and whose trimmed text starts with a brace, the body
is decoded line-by-line as newline-delimited JSON with blank and
malformed lines silently skipped; the body consisting of the two lines
of objects a=1 and b=2 decodes to exactly those two objects, and an
interleaved blank line and malformed line are skipped. -/
theorem snapshot_ndjson_decode (parse : String → Option JsonVal) (fmt body : String)
    (hfmt : fmt ≠ "csv") (h1 : strContains body "\n\x7b" = true)
    (h2 : strStartsWith (strTrim body) "\x7b" = true) :
    decode_snapshot_body parse fmt body =
      .objects ((strSplitLines (strTrim body)).filterMap
        (fun line => if strTrim line = "" then none else parse line)) ∧
    decode_snapshot_body jsonLoads "json" "\x7b\"a\":1\x7d\n\x7b\"b\":2\x7d" =
      .objects [.obj [("a", .num 1)], .obj [("b", .num 2)]] ∧
    decode_snapshot_body jsonLoads "json"
        "\x7b\"a\":1\x7d\n\nnot json\n\x7b\"b\":2\x7d" =
      .objects [.obj [("a", .num 1)], .obj [("b", .num 2)]] := by
  refine ⟨?_, rfl, rfl⟩
  unfold decode_snapshot_body
  rw [if_neg hfmt, if_pos ⟨h1, h2⟩]

/-- Witness for C7 applying the decode law at the two-line body. -/
theorem snapshot_ndjson_decode_witness :
    decode_snapshot_body jsonLoads "json" "\x7b\"a\":1\x7d\n\x7b\"b\":2\x7d" =
      .objects ((strSplitLines (strTrim "\x7b\"a\":1\x7d\n\x7b\"b\":2\x7d")).filterMap
        (fun line => if strTrim line = "" then none else jsonLoads line)) :=
  (snapshot_ndjson_decode jsonLoads "json" "\x7b\"a\":1\x7d\n\x7b\"b\":2\x7d"
    (by decide) (by decide) (by decide)).1

/-- Claim C8: when the zone-listing call made during client construction
fails with a network fault, a non-200 status, or an unparseable JSON
body, provisioning is skipped entirely and no exception propagates out
of the constructor. -/
theorem zone_listing_failure_degrades (env : ZoneEnv)
    (tok webZ browserZ serpZ : String) (htok : tok ≠ "")
    (hfail : (∃ m, env.listing = .fault m) ∨
      (∃ s p, env.listing = .resp s p ∧ s ≠ 200) ∨
      (∃ s, env.listing = .resp s none)) :
    ensure_required_zones env [webZ, browserZ, serpZ] = [] ∧
    ∃ c, client_init tok true webZ browserZ serpZ env = .ok c := by
  constructor
  · rcases hfail with ⟨m, hm⟩ | ⟨s, p, hm, hs⟩ | ⟨s, hm⟩
    · simp [ensure_required_zones, ensure_zones_body, hm]
    · simp [ensure_required_zones, ensure_zones_body, hm, hs]
    · by_cases hs : s = 200
      · subst hs; simp [ensure_required_zones, ensure_zones_body, hm]
      · simp [ensure_required_zones, ensure_zones_body, hm, hs]
  · unfold client_init
    rw [if_neg htok]
    exact ⟨_, rfl⟩

/-- Witness for C8 at a concrete network fault during listing. -/
theorem zone_listing_failure_degrades_witness :
    ensure_required_zones ⟨.fault "connection refused", fun _ => (200, "")⟩
      ["sdk_unlocker", "sdk_browser", "sdk_serp"] = [] ∧
    ∃ c, client_init "token123" true "sdk_unlocker" "sdk_browser" "sdk_serp"
      ⟨.fault "connection refused", fun _ => (200, "")⟩ = .ok c :=
  zone_listing_failure_degrades ⟨.fault "connection refused", fun _ => (200, "")⟩
    "token123" "sdk_unlocker" "sdk_browser" "sdk_serp" (by decide)
    (Or.inl ⟨"connection refused", rfl⟩)

theorem validate_url_ok_iff (url : String) :
    validate_url url = .ok () ↔ wellFormedUrl url := by
  unfold validate_url wellFormedUrl
  constructor
  · intro h
    by_cases h1 : strTrim url = ""
    · rw [if_pos h1] at h; exact Except.noConfusion h
    · rw [if_neg h1] at h
      by_cases h2 : (urlparse url).scheme = "" ∨ (urlparse url).netloc = ""
      · rw [if_pos h2] at h; exact Except.noConfusion h
      · push_neg at h2
        exact ⟨h1, h2.1, h2.2⟩
  · intro ⟨h1, h2, h3⟩
    rw [if_neg h1, if_neg (by push_neg; exact ⟨h2, h3⟩)]

theorem validate_urls_error_of_bad (urls : List String) (u : String)
    (hu : u ∈ urls) (hbad : ¬ wellFormedUrl u) :
    ∃ m, validate_urls urls = .error m := by
  induction urls with
  | nil => cases hu
  | cons v rest ih =>
    cases hv : validate_url v with
    | error m => exact ⟨m, by simp only [validate_urls, hv]⟩
    | ok u2 =>
      rcases List.mem_cons.mp hu with rfl | hmem
      · exact absurd ((validate_url_ok_iff u).mp (by rw [hv])) hbad
      · obtain ⟨m, hm⟩ := ih hmem
        exact ⟨m, by simp only [validate_urls, hv, hm]⟩

/-- Claim C9: a batch scrape whose input list is empty, or contains an
item that is not a well-formed URL (non-empty, with a scheme and a
host), raises a validation error whose value is independent of the
worker pool and of any network outcome. -/
theorem scrape_validation_short_circuits (urls : List String)
    (h : urls = [] ∨ ∃ u ∈ urls, ¬ wellFormedUrl u) :
    ∃ m, ∀ (β : Type) (perform : String → Except String β) (order : List Nat),
      scrape_list perform urls order = .error m := by
  rcases h with rfl | ⟨u, hu, hbad⟩
  · exact ⟨"URL list cannot be empty", fun β perform order => rfl⟩
  · have hne : urls ≠ [] := fun hnil => by simp [hnil] at hu
    obtain ⟨m, hm⟩ := validate_urls_error_of_bad urls u hu hbad
    refine ⟨m, fun β perform order => ?_⟩
    simp only [scrape_list, if_neg hne, hm]

/-- Witness for C9: a malformed URL and an empty batch each short-circuit
a concrete scrape call. -/
theorem scrape_validation_short_circuits_witness :
    (∃ m, scrape_list (fun u => (Except.ok u : Except String String))
      ["not a url"] [0] = .error m) ∧
    (∃ m, scrape_list (fun u => (Except.ok u : Except String String))
      ([] : List String) [] = .error m) := by
  constructor
  · obtain ⟨m, hm⟩ := scrape_validation_short_circuits ["not a url"]
      (Or.inr ⟨"not a url", by simp, by decide⟩)
    exact ⟨m, hm String (fun u => Except.ok u) [0]⟩
  · obtain ⟨m, hm⟩ := scrape_validation_short_circuits [] (Or.inl rfl)
    exact ⟨m, hm String (fun u => Except.ok u) []⟩

/-- Claim C10: after a successful decode, `download_snapshot` attempts a
local write to `snapshot_<id>.<format>`, and the caller-visible value is
the decoded data, identical whether the write succeeds or fails. -/
theorem snapshot_write_swallowed (snapshot_id fmt : String)
    (batch_size part : Option Int) (parse : String → Option JsonVal)
    (status : Nat) (body : String) (w₁ w₂ : String → Except String Unit)
    (hv : download_snapshot_validate snapshot_id fmt batch_size part = .ok ())
    (hs : status = 200) :
    download_snapshot snapshot_id fmt batch_size part parse status body w₁ =
      download_snapshot snapshot_id fmt batch_size part parse status body w₂ ∧
    download_snapshot snapshot_id fmt batch_size part parse status body w₁ =
      (.ok (decode_snapshot_body parse fmt body),
        some ("snapshot_" ++ snapshot_id ++ "." ++ fmt)) := by
  subst hs
  unfold download_snapshot
  rw [hv]
  simp only [show ¬ ((200 : Nat) = 401) by decide, if_false,
    show ¬ ((200 : Nat) = 404) by decide, show ¬ ((200 : Nat) ≠ 200) by decide]
  constructor
  · cases w₁ ("snapshot_" ++ snapshot_id ++ "." ++ fmt) <;>
      cases w₂ ("snapshot_" ++ snapshot_id ++ "." ++ fmt) <;> rfl
  · cases w₁ ("snapshot_" ++ snapshot_id ++ "." ++ fmt) <;> rfl

/-- Witness for C10: a failing local write and a succeeding one return
the same decoded data. -/
theorem snapshot_write_swallowed_witness :
    download_snapshot "s1" "json" none none jsonLoads 200 "\x7b\"a\":1\x7d"
        (fun _ => .error "disk full") =
      download_snapshot "s1" "json" none none jsonLoads 200 "\x7b\"a\":1\x7d"
        (fun _ => .ok ()) ∧
    download_snapshot "s1" "json" none none jsonLoads 200 "\x7b\"a\":1\x7d"
        (fun _ => .error "disk full") =
      (.ok (decode_snapshot_body jsonLoads "json" "\x7b\"a\":1\x7d"),
        some ("snapshot_" ++ "s1" ++ "." ++ "json")) :=
  snapshot_write_swallowed "s1" "json" none none jsonLoads 200 "\x7b\"a\":1\x7d"
    (fun _ => .error "disk full") (fun _ => .ok ()) rfl rfl

end BrightData
